import Mathlib

/-!
Verification of the double-pendulum core (`pendulum.py`): the `DoublePendulum`
model (constructor validation, Lagrangian derivative evaluation with a
degeneracy guard) and the fixed-step RK4 integrator over an `np.arange` time
grid.  Floating-point arithmetic is embedded as exact real arithmetic.
-/

open Classical

/-- The 4-component state vector `[theta1, theta2, omega1, omega2]`. -/
structure PState where
  theta1 : ℝ
  theta2 : ℝ
  omega1 : ℝ
  omega2 : ℝ

instance : Add PState where
  add a b := ⟨a.theta1 + b.theta1, a.theta2 + b.theta2,
              a.omega1 + b.omega1, a.omega2 + b.omega2⟩

instance : SMul ℝ PState where
  smul c a := ⟨c * a.theta1, c * a.theta2, c * a.omega1, c * a.omega2⟩

theorem PState.add_def (a b : PState) :
    a + b = ⟨a.theta1 + b.theta1, a.theta2 + b.theta2,
             a.omega1 + b.omega1, a.omega2 + b.omega2⟩ := rfl

theorem PState.smul_def (c : ℝ) (a : PState) :
    c • a = ⟨c * a.theta1, c * a.theta2, c * a.omega1, c * a.omega2⟩ := rfl

/-- Interpret a raw list of reals (the caller-supplied `y0` array) as a state.
Matches the elementwise copy `Y[0, :] = y0` for a length-4 list. -/
def toPState (l : List ℝ) : PState :=
  ⟨l.getD 0 0, l.getD 1 0, l.getD 2 0, l.getD 3 0⟩

/-- The model class `DoublePendulum`: physical parameters stored by `__init__`. -/
structure DoublePendulum where
  L1 : ℝ
  L2 : ℝ
  m1 : ℝ
  m2 : ℝ
  g : ℝ

/-- Error kinds surfaced by the core (spec §7): `ValueError` raised by the
constructor is `invalidParameter`, `ValueError` raised by `integrate` is
`invalidArgument`, and `NotImplementedError` is `unsupportedMethod`, which
carries the requested method name. -/
inductive PendulumError where
  | invalidParameter (msg : String)
  | invalidArgument (msg : String)
  | unsupportedMethod (method : String)
deriving DecidableEq

/-- `DoublePendulum.__init__`: validates lengths and masses, then stores the
five parameters (`g` is stored unvalidated). -/
noncomputable def DoublePendulum.init (L1 L2 m1 m2 g : ℝ) :
    Except PendulumError DoublePendulum :=
  if L1 ≤ 0 ∨ L2 ≤ 0 then
    .error (.invalidParameter "lengths L1 and L2 must be positive")
  else if m1 ≤ 0 ∨ m2 ≤ 0 then
    .error (.invalidParameter "masses m1 and m2 must be positive")
  else
    .ok ⟨L1, L2, m1, m2, g⟩

/-- The guard threshold `eps = 1e-8` of `derivatives`. -/
def pendEps : ℝ := 1e-8

/-- First coupled-inertia denominator `denom1 = L1 * (m1 + m2*sinΔ*sinΔ)`. -/
noncomputable def DoublePendulum.denom1 (p : DoublePendulum) (s : PState) : ℝ :=
  p.L1 * (p.m1 + p.m2 * Real.sin (s.theta1 - s.theta2) * Real.sin (s.theta1 - s.theta2))

/-- Second coupled-inertia denominator `denom2 = L2 * (m1 + m2*sinΔ*sinΔ)`. -/
noncomputable def DoublePendulum.denom2 (p : DoublePendulum) (s : PState) : ℝ :=
  p.L2 * (p.m1 + p.m2 * Real.sin (s.theta1 - s.theta2) * Real.sin (s.theta1 - s.theta2))

/-- Numerator of the first angular acceleration (Lagrangian closed form). -/
noncomputable def DoublePendulum.num1 (p : DoublePendulum) (s : PState) : ℝ :=
  p.m2 * p.g * Real.sin s.theta2 * Real.cos (s.theta1 - s.theta2)
    - p.m2 * Real.sin (s.theta1 - s.theta2) *
        (p.L1 * s.omega1 ^ 2 * Real.cos (s.theta1 - s.theta2) + p.L2 * s.omega2 ^ 2)
    - (p.m1 + p.m2) * p.g * Real.sin s.theta1

/-- Numerator of the second angular acceleration (Lagrangian closed form). -/
noncomputable def DoublePendulum.num2 (p : DoublePendulum) (s : PState) : ℝ :=
  (p.m1 + p.m2) * (p.L1 * s.omega1 ^ 2 * Real.sin (s.theta1 - s.theta2)
      - p.g * Real.sin s.theta2
      + p.g * Real.sin s.theta1 * Real.cos (s.theta1 - s.theta2))
    + p.m2 * p.L2 * s.omega2 ^ 2 * Real.sin (s.theta1 - s.theta2) *
        Real.cos (s.theta1 - s.theta2)

/-- `DoublePendulum.derivatives`: right-hand sides of the equations of motion.
Returns `[omega1, omega2, alpha1, alpha2]`; if either denominator is below
`eps` in magnitude, both accelerations are forced to `0.0`. -/
noncomputable def DoublePendulum.derivatives (p : DoublePendulum) (s : PState) :
    PState :=
  if |p.denom1 s| < pendEps ∨ |p.denom2 s| < pendEps then
    ⟨s.omega1, s.omega2, 0, 0⟩
  else
    ⟨s.omega1, s.omega2, p.num1 s / p.denom1 s, p.num2 s / p.denom2 s⟩

/-- Length of the grid `np.arange(0.0, t_max + dt/2, dt)`:
`ceil((stop - start) / step)` clamped at zero. -/
noncomputable def gridLen (t_max dt : ℝ) : ℕ :=
  ⌈(t_max + dt / 2) / dt⌉₊

/-- The time grid `np.arange(0.0, t_max + dt/2, dt)`: samples `i * dt`. -/
noncomputable def timeGrid (t_max dt : ℝ) : List ℝ :=
  (List.range (gridLen t_max dt)).map (fun i : ℕ => (i : ℝ) * dt)

/-- One step of the RK4 loop body (`integrate`, lines 116–121). -/
noncomputable def rk4Step (p : DoublePendulum) (dt : ℝ) (yi : PState) : PState :=
  let k1 := p.derivatives yi
  let k2 := p.derivatives (yi + (0.5 * dt) • k1)
  let k3 := p.derivatives (yi + (0.5 * dt) • k2)
  let k4 := p.derivatives (yi + dt • k3)
  yi + (dt / 6) • (k1 + (2 : ℝ) • k2 + (2 : ℝ) • k3 + k4)

/-- The state array `Y` produced by the RK4 loop: `Y[0] = y0` and
`Y[i+1] = rk4Step Y[i]`, so `Y[i]` is the `i`-fold iterate. -/
noncomputable def rk4Traj (p : DoublePendulum) (dt : ℝ) (y0 : PState) (N : ℕ) :
    List PState :=
  (List.range N).map (fun i => (rk4Step p dt)^[i] y0)

/-- Python's `str.lower()`: lowercase every character. -/
def strLower (s : String) : String := ⟨s.data.map Char.toLower⟩

/-- `DoublePendulum.integrate`: validates `dt`, `t_max` and the shape of `y0`
(in that order), builds the time grid, and runs the RK4 loop when
`method.lower() == "rk4"`; any other method raises `NotImplementedError`. -/
noncomputable def DoublePendulum.integrate (p : DoublePendulum) (y0 : List ℝ)
    (t_max dt : ℝ) (method : String) :
    Except PendulumError (List ℝ × List PState) :=
  if dt ≤ 0 then
    .error (.invalidArgument "step dt must be positive")
  else if t_max ≤ 0 then
    .error (.invalidArgument "t_max must be positive")
  else if y0.length ≠ 4 then
    .error (.invalidArgument "initial vector y0 must have shape (4,)")
  else if strLower method = "rk4" then
    .ok (timeGrid t_max dt, rk4Traj p dt (toPState y0) (gridLen t_max dt))
  else
    .error (.unsupportedMethod method)

/-- Observable execution steps of one `integrate` call, in the statement order
of the source: argument validation, then `np.arange` (grid construction), then
`np.zeros` and `Y[0,:] = y0` (state-array construction), then the check of
`method.lower()`, then — only in the `"rk4"` branch — the four `derivatives`
calls per interval. -/
inductive IntegrateEvent where
  | validateArgs
  | buildGrid
  | allocStateArray
  | methodCheck
  | derivCall
  | raiseError
  | returnResult
deriving DecidableEq

/-- The event trace of `integrate`, mirroring the source line by line:
the grid and the state array are constructed before the method is examined. -/
noncomputable def integrateTrace (p : DoublePendulum) (y0 : List ℝ)
    (t_max dt : ℝ) (method : String) : List IntegrateEvent :=
  if dt ≤ 0 ∨ t_max ≤ 0 ∨ y0.length ≠ 4 then
    [.validateArgs, .raiseError]
  else
    [.validateArgs, .buildGrid, .allocStateArray, .methodCheck] ++
      (if strLower method = "rk4" then
        List.replicate (4 * (gridLen t_max dt - 1)) IntegrateEvent.derivCall
          ++ [.returnResult]
      else
        [.raiseError])

/-! ### Helper lemmas and concrete instances -/

/-- The example model of `pendulum.py`'s `__main__` block: `L1=2, L2=2, m1=1, m2=3`. -/
noncomputable def pend0 : DoublePendulum := ⟨2, 2, 1, 3, 981 / 100⟩

/-- A model with masses small enough to trigger the degeneracy guard. -/
noncomputable def pendTiny : DoublePendulum := ⟨1, 1, 1e-9, 1e-9, 981 / 100⟩

theorem DoublePendulum.integrate_ok (p : DoublePendulum) (y0 : List ℝ)
    (t_max dt : ℝ) (method : String) (h1 : 0 < dt) (h2 : 0 < t_max)
    (h3 : y0.length = 4) (h4 : strLower method = "rk4") :
    p.integrate y0 t_max dt method =
      .ok (timeGrid t_max dt, rk4Traj p dt (toPState y0) (gridLen t_max dt)) := by
  unfold DoublePendulum.integrate
  rw [if_neg (not_le.mpr h1), if_neg (not_le.mpr h2),
    if_neg (not_ne_iff.mpr h3), if_pos h4]

theorem DoublePendulum.integrate_badMethod (p : DoublePendulum) (y0 : List ℝ)
    (t_max dt : ℝ) (method : String) (h1 : 0 < dt) (h2 : 0 < t_max)
    (h3 : y0.length = 4) (h4 : strLower method ≠ "rk4") :
    p.integrate y0 t_max dt method = .error (.unsupportedMethod method) := by
  unfold DoublePendulum.integrate
  rw [if_neg (not_le.mpr h1), if_neg (not_le.mpr h2),
    if_neg (not_ne_iff.mpr h3), if_neg h4]

theorem gridLen_half : gridLen 1 (1 / 2) = 3 := by
  unfold gridLen
  rw [show ((1 : ℝ) + (1 / 2) / 2) / (1 / 2) = 5 / 2 by norm_num,
    Nat.ceil_eq_iff (by norm_num)]
  norm_num

theorem timeGrid_half : timeGrid 1 (1 / 2) = [0, 1 / 2, 1] := by
  unfold timeGrid
  rw [gridLen_half, show List.range 3 = [0, 1, 2] from rfl]
  norm_num

theorem gridLen_tie : gridLen (3 / 2) 1 = 2 := by
  unfold gridLen
  rw [show ((3 : ℝ) / 2 + 1 / 2) / 1 = 2 by norm_num,
    Nat.ceil_eq_iff (by norm_num)]
  norm_num

theorem timeGrid_tie : timeGrid (3 / 2) 1 = [0, 1] := by
  unfold timeGrid
  rw [gridLen_tie, show List.range 2 = [0, 1] from rfl]
  norm_num

theorem gridLen_shortLast : gridLen 1 (3 / 4) = 2 := by
  unfold gridLen
  rw [show ((1 : ℝ) + (3 / 4) / 2) / (3 / 4) = 11 / 6 by norm_num,
    Nat.ceil_eq_iff (by norm_num)]
  norm_num

theorem timeGrid_shortLast : timeGrid 1 (3 / 4) = [0, 3 / 4] := by
  unfold timeGrid
  rw [gridLen_shortLast, show List.range 2 = [0, 1] from rfl]
  norm_num

theorem timeGrid_length (t_max dt : ℝ) :
    (timeGrid t_max dt).length = gridLen t_max dt := by
  unfold timeGrid
  rw [List.length_map, List.length_range]

theorem timeGrid_getElem (t_max dt : ℝ) {i : ℕ} (h : i < gridLen t_max dt) :
    (timeGrid t_max dt)[i]? = some ((i : ℝ) * dt) := by
  unfold timeGrid
  rw [List.getElem?_map, List.getElem?_range h]
  rfl

theorem rk4Traj_length (p : DoublePendulum) (dt : ℝ) (y0 : PState) (N : ℕ) :
    (rk4Traj p dt y0 N).length = N := by
  unfold rk4Traj
  rw [List.length_map, List.length_range]

theorem rk4Traj_getElem (p : DoublePendulum) (dt : ℝ) (y0 : PState) (N : ℕ)
    {i : ℕ} (h : i < N) :
    (rk4Traj p dt y0 N)[i]? = some ((rk4Step p dt)^[i] y0) := by
  unfold rk4Traj
  rw [List.getElem?_map, List.getElem?_range h]
  rfl

/-! ### Claim theorems -/

/-- C6: `integrate` fails with an `InvalidArgument` error exactly when `y0`
does not have exactly 4 components, or `dt ≤ 0`, or `t_max ≤ 0`; no trajectory
is produced in that case. -/
theorem integrate_invalidArgument_iff (p : DoublePendulum) (y0 : List ℝ)
    (t_max dt : ℝ) (method : String) :
    (∃ msg, p.integrate y0 t_max dt method = .error (.invalidArgument msg)) ↔
      (y0.length ≠ 4 ∨ dt ≤ 0 ∨ t_max ≤ 0) := by
  unfold DoublePendulum.integrate
  split_ifs with h1 h2 h3 h4
  · simp; tauto
  · simp; tauto
  · simp; tauto
  · push_neg at h1 h2
    simp [not_le, h1, h2, h3]
  · push_neg at h1 h2
    simp [not_le, h1, h2, h3]

/-- C7: `integrate` accepts the method identifier `"rk4"` case-insensitively
(any string whose lowercasing is `"rk4"` runs the RK4 scheme), and every other
method value fails with an `UnsupportedMethod` error carrying the requested
method; no other scheme runs. -/
theorem integrate_method_dispatch (p : DoublePendulum) (y0 : List ℝ)
    (t_max dt : ℝ) (method : String) (h1 : 0 < dt) (h2 : 0 < t_max)
    (h3 : y0.length = 4) :
    (strLower method = "rk4" →
      p.integrate y0 t_max dt method =
        .ok (timeGrid t_max dt, rk4Traj p dt (toPState y0) (gridLen t_max dt))) ∧
    (strLower method ≠ "rk4" →
      p.integrate y0 t_max dt method = .error (.unsupportedMethod method)) :=
  ⟨fun h4 => p.integrate_ok y0 t_max dt method h1 h2 h3 h4,
   fun h4 => p.integrate_badMethod y0 t_max dt method h1 h2 h3 h4⟩

/-- C7 witness: with valid numeric arguments, `"RK4"` (mixed case) runs RK4 and
`"euler"` is rejected with an `UnsupportedMethod` error naming `"euler"`. -/
theorem integrate_method_dispatch_witness :
    pend0.integrate [0, 0, 0, 0] 1 (1 / 2) "RK4" =
      .ok (timeGrid 1 (1 / 2),
        rk4Traj pend0 (1 / 2) (toPState [0, 0, 0, 0]) (gridLen 1 (1 / 2))) ∧
    pend0.integrate [0, 0, 0, 0] 1 (1 / 2) "euler" =
      .error (.unsupportedMethod "euler") :=
  ⟨(integrate_method_dispatch pend0 [0, 0, 0, 0] 1 (1 / 2) "RK4"
      (by norm_num) (by norm_num) (by simp)).1 (by decide),
   (integrate_method_dispatch pend0 [0, 0, 0, 0] 1 (1 / 2) "euler"
      (by norm_num) (by norm_num) (by simp)).2 (by decide)⟩

/-- C9: model construction fails with an `InvalidParameter` error exactly when
one of `L1`, `L2`, `m1`, `m2` is non-positive, and with all four positive it
succeeds and stores exactly the supplied parameter values. -/
theorem init_validation (L1 L2 m1 m2 g : ℝ) :
    ((∃ msg, DoublePendulum.init L1 L2 m1 m2 g = .error (.invalidParameter msg)) ↔
      (L1 ≤ 0 ∨ L2 ≤ 0 ∨ m1 ≤ 0 ∨ m2 ≤ 0)) ∧
    (0 < L1 → 0 < L2 → 0 < m1 → 0 < m2 →
      DoublePendulum.init L1 L2 m1 m2 g = .ok ⟨L1, L2, m1, m2, g⟩) := by
  constructor
  · unfold DoublePendulum.init
    split_ifs with h1 h2
    · simp; tauto
    · simp; tauto
    · push_neg at h1 h2
      simp [not_le, h1.1, h1.2, h2.1, h2.2]
  · intro hL1 hL2 hm1 hm2
    unfold DoublePendulum.init
    rw [if_neg (by push_neg; exact ⟨hL1, hL2⟩), if_neg (by push_neg; exact ⟨hm1, hm2⟩)]

/-- C9 witness: `init 2 2 1 3 9.81` succeeds and stores the parameters. -/
theorem init_validation_witness :
    DoublePendulum.init 2 2 1 3 (981 / 100) = .ok ⟨2, 2, 1, 3, 981 / 100⟩ :=
  (init_validation 2 2 1 3 (981 / 100)).2 (by norm_num) (by norm_num)
    (by norm_num) (by norm_num)

/-- C10: `g` is never validated: with positive lengths and masses,
construction succeeds for any real `g` (including zero and negative values),
the supplied `g` is stored as-is, and every subsequent derivative evaluation
of the constructed model uses that stored `g`. -/
theorem init_g_unvalidated (L1 L2 m1 m2 g : ℝ)
    (hL1 : 0 < L1) (hL2 : 0 < L2) (hm1 : 0 < m1) (hm2 : 0 < m2) :
    DoublePendulum.init L1 L2 m1 m2 g = .ok ⟨L1, L2, m1, m2, g⟩ ∧
    (DoublePendulum.mk L1 L2 m1 m2 g).g = g := by
  refine ⟨?_, rfl⟩
  unfold DoublePendulum.init
  rw [if_neg (by push_neg; exact ⟨hL1, hL2⟩), if_neg (by push_neg; exact ⟨hm1, hm2⟩)]

/-- C10 witness: construction succeeds with `g = 0` and with `g = -9.81`. -/
theorem init_g_unvalidated_witness :
    DoublePendulum.init 1 1 1 1 0 = .ok ⟨1, 1, 1, 1, 0⟩ ∧
    DoublePendulum.init 1 1 1 1 (-(981 / 100)) = .ok ⟨1, 1, 1, 1, -(981 / 100)⟩ :=
  ⟨(init_g_unvalidated 1 1 1 1 0 (by norm_num) (by norm_num) (by norm_num)
      (by norm_num)).1,
   (init_g_unvalidated 1 1 1 1 (-(981 / 100)) (by norm_num) (by norm_num)
      (by norm_num) (by norm_num)).1⟩

/-- C2: away from the degeneracy guard (both denominators at least `1e-8` in
magnitude), `derivatives` returns exactly
`(omega1, omega2, num1/denom1, num2/denom2)`, with `num1`, `num2`, `denom1`,
`denom2` equal to the specified Lagrangian closed forms; and the first two
output components always equal the input `omega1`, `omega2` unchanged. -/
theorem derivatives_formula (p : DoublePendulum) (s : PState) :
    (pendEps ≤ |p.denom1 s| → pendEps ≤ |p.denom2 s| →
      p.derivatives s =
        ⟨s.omega1, s.omega2, p.num1 s / p.denom1 s, p.num2 s / p.denom2 s⟩) ∧
    p.num1 s = p.m2 * p.g * Real.sin s.theta2 * Real.cos (s.theta1 - s.theta2)
        - p.m2 * Real.sin (s.theta1 - s.theta2) *
            (p.L1 * s.omega1 ^ 2 * Real.cos (s.theta1 - s.theta2)
              + p.L2 * s.omega2 ^ 2)
        - (p.m1 + p.m2) * p.g * Real.sin s.theta1 ∧
    p.num2 s = (p.m1 + p.m2) * (p.L1 * s.omega1 ^ 2 * Real.sin (s.theta1 - s.theta2)
          - p.g * Real.sin s.theta2
          + p.g * Real.sin s.theta1 * Real.cos (s.theta1 - s.theta2))
        + p.m2 * p.L2 * s.omega2 ^ 2 * Real.sin (s.theta1 - s.theta2) *
            Real.cos (s.theta1 - s.theta2) ∧
    p.denom1 s = p.L1 * (p.m1 + p.m2 * Real.sin (s.theta1 - s.theta2) ^ 2) ∧
    p.denom2 s = p.L2 * (p.m1 + p.m2 * Real.sin (s.theta1 - s.theta2) ^ 2) ∧
    (p.derivatives s).theta1 = s.omega1 ∧ (p.derivatives s).theta2 = s.omega2 := by
  refine ⟨?_, rfl, rfl, by unfold DoublePendulum.denom1; ring,
    by unfold DoublePendulum.denom2; ring, ?_, ?_⟩
  · intro h1 h2
    unfold DoublePendulum.derivatives
    rw [if_neg (not_or.mpr ⟨not_lt.mpr h1, not_lt.mpr h2⟩)]
  · unfold DoublePendulum.derivatives
    split_ifs <;> rfl
  · unfold DoublePendulum.derivatives
    split_ifs <;> rfl

/-- C2 witness: at the `__main__` example model and the state
`(π/2, π/2, 3, 0)` the guard is inactive and the closed form applies. -/
theorem derivatives_formula_witness :
    pend0.derivatives ⟨Real.pi / 2, Real.pi / 2, 3, 0⟩ =
      ⟨3, 0,
        pend0.num1 ⟨Real.pi / 2, Real.pi / 2, 3, 0⟩ /
          pend0.denom1 ⟨Real.pi / 2, Real.pi / 2, 3, 0⟩,
        pend0.num2 ⟨Real.pi / 2, Real.pi / 2, 3, 0⟩ /
          pend0.denom2 ⟨Real.pi / 2, Real.pi / 2, 3, 0⟩⟩ :=
  (derivatives_formula pend0 ⟨Real.pi / 2, Real.pi / 2, 3, 0⟩).1
    (by norm_num [DoublePendulum.denom1, pend0, pendEps, Real.sin_zero])
    (by norm_num [DoublePendulum.denom2, pend0, pendEps, Real.sin_zero])

/-- C5: `derivatives` is total: whenever either denominator is below `1e-8`
in magnitude it returns `(omega1, omega2, 0, 0)` — both accelerations forced
to exactly `0.0` — and otherwise both denominators are at least `1e-8` in
magnitude, so the divisions are well-defined. -/
theorem derivatives_guard (p : DoublePendulum) (s : PState) :
    (|p.denom1 s| < pendEps ∨ |p.denom2 s| < pendEps →
      p.derivatives s = ⟨s.omega1, s.omega2, 0, 0⟩) ∧
    (¬ (|p.denom1 s| < pendEps ∨ |p.denom2 s| < pendEps) →
      pendEps ≤ |p.denom1 s| ∧ pendEps ≤ |p.denom2 s|) := by
  constructor
  · intro h
    unfold DoublePendulum.derivatives
    rw [if_pos h]
  · intro h
    push_neg at h
    exact ⟨h.1, h.2⟩

/-- C5 witness: a model with masses `1e-9` drives `denom1` below `1e-8` at the
aligned state `(0, 0, 5, 7)`, and both accelerations come back exactly `0.0`
with the angular velocities passed through. -/
theorem derivatives_guard_witness :
    pendTiny.derivatives ⟨0, 0, 5, 7⟩ = ⟨5, 7, 0, 0⟩ :=
  (derivatives_guard pendTiny ⟨0, 0, 5, 7⟩).1
    (Or.inl (by norm_num [DoublePendulum.denom1, pendTiny, pendEps, Real.sin_zero,
      abs_lt]))

/-- C1: every successful `integrate(..., "rk4")` call returns a trajectory
with `Y[0] = y0` exactly and each following row equal to the classical RK4
update `rk4Step` of its predecessor (four `derivatives` stages combined as
`yi + (dt/6)*(k1 + 2*k2 + 2*k3 + k4)`, component-wise). -/
theorem integrate_rk4_recurrence (p : DoublePendulum) (y0 : List ℝ)
    (t_max dt : ℝ) (t : List ℝ) (Y : List PState)
    (h : p.integrate y0 t_max dt "rk4" = .ok (t, Y)) :
    Y[0]? = some (toPState y0) ∧
    ∀ i : ℕ, i + 1 < Y.length →
      Y[i + 1]? = Option.map (rk4Step p dt) Y[i]? := by
  unfold DoublePendulum.integrate at h
  split_ifs at h with h1 h2 h3 h4
  rw [Except.ok.injEq, Prod.mk.injEq] at h
  obtain ⟨-, hY⟩ := h
  subst hY
  push_neg at h1 h2
  have hN : 0 < gridLen t_max dt :=
    Nat.ceil_pos.mpr (div_pos (by linarith) h1)
  constructor
  · simp [rk4Traj, List.getElem?_range, hN]
  · intro i hi
    have hlen : (rk4Traj p dt (toPState y0) (gridLen t_max dt)).length
        = gridLen t_max dt := by simp [rk4Traj]
    rw [hlen] at hi
    simp [rk4Traj, List.getElem?_range, hi, Nat.lt_of_succ_lt hi,
      Function.iterate_succ_apply']

/-- C1 witness: at the example model with `y0 = (0,0,0,0)`, `t_max = 1`,
`dt = 1/2`, the call succeeds, row 0 is `y0` and row 1 is the RK4 update of
row 0. -/
theorem integrate_rk4_recurrence_witness :
    (rk4Traj pend0 (1 / 2) (toPState [0, 0, 0, 0]) (gridLen 1 (1 / 2)))[0]? =
      some (toPState [0, 0, 0, 0]) ∧
    (rk4Traj pend0 (1 / 2) (toPState [0, 0, 0, 0]) (gridLen 1 (1 / 2)))[1]? =
      Option.map (rk4Step pend0 (1 / 2))
        (rk4Traj pend0 (1 / 2) (toPState [0, 0, 0, 0]) (gridLen 1 (1 / 2)))[0]? := by
  have h := integrate_rk4_recurrence pend0 [0, 0, 0, 0] 1 (1 / 2)
    (timeGrid 1 (1 / 2))
    (rk4Traj pend0 (1 / 2) (toPState [0, 0, 0, 0]) (gridLen 1 (1 / 2)))
    (pend0.integrate_ok [0, 0, 0, 0] 1 (1 / 2) "rk4"
      (by norm_num) (by norm_num) (by simp) (by decide))
  have hlen : (rk4Traj pend0 (1 / 2) (toPState [0, 0, 0, 0])
      (gridLen 1 (1 / 2))).length = 3 := by
    simp only [rk4Traj, List.length_map, List.length_range]
    exact gridLen_half
  exact ⟨h.1, h.2 0 (by rw [hlen]; norm_num)⟩

/-- C3 counterexample: with `t_max = 3/2`, `dt = 1` the sample `2*dt = 2`
satisfies the claimed admission condition `2*dt ≤ t_max + dt/2 = 2`, yet the
grid `np.arange(0, 2, 1) = [0, 1]` does not contain it: the admission
condition of the code is strict `<`, not `≤`. -/
theorem timeGrid_tie_counterexample :
    (0 : ℝ) < 3 / 2 ∧ (0 : ℝ) < 1 ∧
    (2 : ℝ) * 1 ≤ 3 / 2 + 1 / 2 ∧
    (2 : ℝ) * 1 ∉ timeGrid (3 / 2) 1 := by
  refine ⟨by norm_num, by norm_num, by norm_num, ?_⟩
  rw [timeGrid_tie]
  norm_num

/-- C3 (amended): the grid contains exactly the samples `k*dt` with
`k*dt < t_max + dt/2` (strict inequality), and in particular
`t_max = 1`, `dt = 1/2` yields `t = [0, 1/2, 1]` with `N = 3`. -/
theorem timeGrid_membership (t_max dt : ℝ) (h1 : 0 < t_max) (h2 : 0 < dt) :
    (∀ k : ℕ, ((k : ℝ) * dt ∈ timeGrid t_max dt ↔
      (k : ℝ) * dt < t_max + dt / 2)) ∧
    timeGrid 1 (1 / 2) = [0, 1 / 2, 1] := by
  refine ⟨fun k => ⟨fun hk => ?_, fun hk => ?_⟩, timeGrid_half⟩
  · unfold timeGrid at hk
    rw [List.mem_map] at hk
    obtain ⟨j, hj, hjk⟩ := hk
    rw [List.mem_range] at hj
    have hjk' : j = k := by
      have := mul_right_cancel₀ (ne_of_gt h2) hjk
      exact_mod_cast this
    subst hjk'
    have hlt : (j : ℝ) < (t_max + dt / 2) / dt := Nat.lt_ceil.mp hj
    calc (j : ℝ) * dt < ((t_max + dt / 2) / dt) * dt :=
        mul_lt_mul_of_pos_right hlt h2
      _ = t_max + dt / 2 := div_mul_cancel₀ _ (ne_of_gt h2)
  · unfold timeGrid
    rw [List.mem_map]
    refine ⟨k, ?_, rfl⟩
    rw [List.mem_range]
    unfold gridLen
    rw [Nat.lt_ceil, lt_div_iff₀ h2]
    exact hk

/-- C3 witness: at `t_max = 1`, `dt = 1/2` the sample `2 * (1/2) = 1` is below
`t_max + dt/2 = 1.25` and is in the grid. -/
theorem timeGrid_membership_witness :
    ((2 : ℕ) : ℝ) * (1 / 2) ∈ timeGrid 1 (1 / 2) :=
  ((timeGrid_membership 1 (1 / 2) (by norm_num) (by norm_num)).1 2).mpr
    (by norm_num)

/-- C4 counterexample: the successful call with `t_max = 1`, `dt = 3/4` yields
the grid `[0, 3/4]`, whose last sample `3/4` is strictly below `t_max = 1`:
the claimed invariant `t[N-1] ≥ t_max` fails. -/
theorem trajectory_lastSample_counterexample :
    pend0.integrate [0, 0, 0, 0] 1 (3 / 4) "rk4" =
      .ok (timeGrid 1 (3 / 4),
        rk4Traj pend0 (3 / 4) (toPState [0, 0, 0, 0]) (gridLen 1 (3 / 4))) ∧
    (timeGrid 1 (3 / 4)).getLast? = some (3 / 4) ∧
    ¬ ((1 : ℝ) ≤ 3 / 4) := by
  refine ⟨pend0.integrate_ok [0, 0, 0, 0] 1 (3 / 4) "rk4"
    (by norm_num) (by norm_num) (by simp) (by decide), ?_, by norm_num⟩
  rw [timeGrid_shortLast]
  rfl

/-- C4 (amended): every successful `integrate(..., "rk4")` call returns
equal-length sequences with `t[0] = 0`, constant step `dt`, `Y[0] = y0`, and a
last time sample within half a step of `t_max`:
`t_max - dt/2 ≤ t[N-1] < t_max + dt/2` (the lower bound can be attained, so
`t[N-1] ≥ t_max` does not hold in general). -/
theorem integrate_trajectory_invariants (p : DoublePendulum) (y0 : List ℝ)
    (t_max dt : ℝ) (t : List ℝ) (Y : List PState)
    (h : p.integrate y0 t_max dt "rk4" = .ok (t, Y)) :
    t.length = Y.length ∧ t.length = gridLen t_max dt ∧
    t[0]? = some 0 ∧
    (∀ i : ℕ, i + 1 < t.length → t[i + 1]? = Option.map (· + dt) t[i]?) ∧
    Y[0]? = some (toPState y0) ∧
    (∀ x : ℝ, t.getLast? = some x →
      t_max - dt / 2 ≤ x ∧ x < t_max + dt / 2) := by
  unfold DoublePendulum.integrate at h
  split_ifs at h with h1 h2 h3 h4
  rw [Except.ok.injEq, Prod.mk.injEq] at h
  obtain ⟨ht, hY⟩ := h
  subst ht
  subst hY
  push_neg at h1 h2
  have hN : 0 < gridLen t_max dt :=
    Nat.ceil_pos.mpr (div_pos (by linarith) h1)
  have hlen : (timeGrid t_max dt).length = gridLen t_max dt :=
    timeGrid_length t_max dt
  refine ⟨by rw [timeGrid_length, rk4Traj_length], hlen, ?_, ?_, ?_, ?_⟩
  · rw [timeGrid_getElem t_max dt hN]
    norm_num
  · intro i hi
    rw [hlen] at hi
    rw [timeGrid_getElem t_max dt hi,
      timeGrid_getElem t_max dt (Nat.lt_of_succ_lt hi)]
    simp only [Option.map_some', Option.some.injEq]
    push_cast
    ring
  · rw [rk4Traj_getElem p dt (toPState y0) (gridLen t_max dt) hN]
    rfl
  · intro x hx
    rw [List.getLast?_eq_getElem?, hlen] at hx
    set N := gridLen t_max dt with hNdef
    rw [timeGrid_getElem t_max dt (Nat.sub_lt hN one_pos)] at hx
    obtain rfl : ((N - 1 : ℕ) : ℝ) * dt = x := Option.some.inj hx
    have hcast : ((N - 1 : ℕ) : ℝ) = (N : ℝ) - 1 := by
      rw [Nat.cast_sub hN]
      norm_num
    have hSmul : ((t_max + dt / 2) / dt) * dt = t_max + dt / 2 :=
      div_mul_cancel₀ _ (ne_of_gt h1)
    have hup : ((N - 1 : ℕ) : ℝ) < (t_max + dt / 2) / dt :=
      Nat.lt_ceil.mp (Nat.sub_lt hN one_pos)
    have hlow : (t_max + dt / 2) / dt ≤ (N : ℝ) := Nat.le_ceil _
    constructor
    · have hmul := mul_le_mul_of_nonneg_right
        (sub_le_sub_right hlow 1) (le_of_lt h1)
      rw [hcast]
      calc t_max - dt / 2 = ((t_max + dt / 2) / dt - 1) * dt := by
            rw [sub_mul, hSmul]; ring
        _ ≤ ((N : ℝ) - 1) * dt := hmul
    · calc ((N - 1 : ℕ) : ℝ) * dt < ((t_max + dt / 2) / dt) * dt :=
          mul_lt_mul_of_pos_right hup h1
        _ = t_max + dt / 2 := hSmul

/-- C4 witness: at `t_max = 1`, `dt = 1/2` the sequences have equal length,
`t[0] = 0`, and the last sample `1` lies within half a step of `t_max`. -/
theorem integrate_trajectory_invariants_witness :
    (timeGrid 1 (1 / 2)).length =
      (rk4Traj pend0 (1 / 2) (toPState [0, 0, 0, 0]) (gridLen 1 (1 / 2))).length ∧
    (timeGrid 1 (1 / 2))[0]? = some 0 ∧
    ((1 : ℝ) - (1 / 2) / 2 ≤ 1 ∧ (1 : ℝ) < 1 + (1 / 2) / 2) := by
  have h := integrate_trajectory_invariants pend0 [0, 0, 0, 0] 1 (1 / 2)
    (timeGrid 1 (1 / 2))
    (rk4Traj pend0 (1 / 2) (toPState [0, 0, 0, 0]) (gridLen 1 (1 / 2)))
    (pend0.integrate_ok [0, 0, 0, 0] 1 (1 / 2) "rk4"
      (by norm_num) (by norm_num) (by simp) (by decide))
  exact ⟨h.1, h.2.2.1, h.2.2.2.2.2 1 (by rw [timeGrid_half]; rfl)⟩

/-- C8 counterexample: with valid numeric arguments and `method = "euler"`,
the call fails (with `UnsupportedMethod`), yet the execution trace contains
the grid-construction step: the method check does not happen before the grid
and state array are constructed (in the source, `np.arange` and `np.zeros`
run before `method.lower()` is examined). -/
theorem integrate_validation_order_counterexample :
    pend0.integrate [0, 0, 0, 0] 1 (1 / 2) "euler" =
      .error (.unsupportedMethod "euler") ∧
    IntegrateEvent.buildGrid ∈ integrateTrace pend0 [0, 0, 0, 0] 1 (1 / 2) "euler" ∧
    IntegrateEvent.allocStateArray ∈
      integrateTrace pend0 [0, 0, 0, 0] 1 (1 / 2) "euler" := by
  refine ⟨pend0.integrate_badMethod [0, 0, 0, 0] 1 (1 / 2) "euler"
    (by norm_num) (by norm_num) (by simp) (by decide), ?_, ?_⟩ <;>
  · unfold integrateTrace
    rw [if_neg (by norm_num)]
    simp

/-- C8 (amended): when `integrate` fails, no partial trajectory is returned
(the error result carries none) and no derivative has been evaluated; the
numeric-argument validation happens before any grid or state-array
construction, but the method check happens only after the grid and the state
array are constructed. -/
theorem integrate_failure_trace (p : DoublePendulum) (y0 : List ℝ)
    (t_max dt : ℝ) (method : String) (e : PendulumError)
    (h : p.integrate y0 t_max dt method = .error e) :
    IntegrateEvent.derivCall ∉ integrateTrace p y0 t_max dt method ∧
    ((dt ≤ 0 ∨ t_max ≤ 0 ∨ y0.length ≠ 4) →
      IntegrateEvent.buildGrid ∉ integrateTrace p y0 t_max dt method ∧
      IntegrateEvent.allocStateArray ∉ integrateTrace p y0 t_max dt method) := by
  unfold integrateTrace
  split_ifs with hc hm
  · exact ⟨by decide, fun _ => ⟨by decide, by decide⟩⟩
  · exfalso
    push_neg at hc
    rw [p.integrate_ok y0 t_max dt method hc.1 hc.2.1 hc.2.2 hm] at h
    simp at h
  · refine ⟨by simp, fun hcc => absurd hcc hc⟩

/-- C8 witness: for the failing call with `method = "euler"` and valid numeric
arguments, no derivative evaluation appears in the trace. -/
theorem integrate_failure_trace_witness :
    IntegrateEvent.derivCall ∉ integrateTrace pend0 [0, 0, 0, 0] 1 (1 / 2) "euler" :=
  (integrate_failure_trace pend0 [0, 0, 0, 0] 1 (1 / 2) "euler"
    (.unsupportedMethod "euler")
    (pend0.integrate_badMethod [0, 0, 0, 0] 1 (1 / 2) "euler"
      (by norm_num) (by norm_num) (by simp) (by decide))).1
